import Mathlib

/-!
Shallow embedding of the QuietEye event ingestion and persistence pipeline.

Source files embedded:
- `src/backend/app/routes/events.py` — event schema (`EventIn`), output shape
  (`EventOut`), the `POST /v1/events` handler (`ingest_event`) and the
  `GET /v1/events` handler (`list_events`);
- `src/backend/app/models.py` — the persisted `Event` row;
- `src/backend/app/db.py` — `db_ping`;
- `src/backend/app/routes/health.py` — the `/health` handler;
- `src/edge/core/events.py` — the producer-side schema (`QuietEyeEvent`).

Python `datetime` values are modelled as a wall-clock count of seconds plus an
optional UTC offset in minutes (`none` models a timezone-naive datetime).
Python floats are modelled as rationals; the only float operations the code
performs are the bound checks `0.0 <= c <= 1.0`.  JSON object values for the
`extra` field are modelled as association lists of strings.
-/

namespace QuietEye

/-- A `datetime` value: wall-clock seconds plus an optional UTC offset in
minutes.  `offset = none` models a timezone-naive datetime; `offset = some o`
models an aware datetime whose `utcoffset()` is `o` minutes (`some 0` is
`timezone.utc`). -/
structure Timestamp where
  wall : Int
  offset : Option Int
deriving DecidableEq

/-- The UTC instant an aware timestamp denotes, in seconds; a naive timestamp
is compared as if its wall clock were UTC (how a `timestamptz` column orders
it once stored). -/
def Timestamp.key (t : Timestamp) : Int :=
  t.wall - (t.offset.getD 0) * 60

/-- JSON object for the `extra` field, as an association list. -/
abbrev ExtraMap := List (String × String)

/-- The closed `event_type` set: the `Literal[...]` named `EventType` in
`src/backend/app/routes/events.py`. -/
def EventType : List String :=
  ["AFTER_HOURS_PRESENCE",
   "PERSON_IN_RESTRICTED_ZONE",
   "SMOKING_IN_RESTRICTED_ZONE",
   "FIRE_DETECTED",
   "FIRE_IN_RESTRICTED_ZONE",
   "ATTENDANCE_CHECKIN"]

/-- `utc_now_naive` in `src/backend/app/routes/events.py`: despite the name it
returns `datetime.now(timezone.utc)`, a timezone-aware UTC instant.  The
current wall clock is passed in as a parameter. -/
def utc_now_naive (wall : Int) : Timestamp :=
  { wall := wall, offset := some 0 }

/-- A raw request body for `POST /v1/events`, before pydantic validation:
every field may be absent. -/
structure RawEvent where
  event_type : Option String
  timestamp : Option Timestamp
  site_id : Option String
  device_id : Option String
  camera_id : Option String
  zone : Option String
  confidence : Option Rat
  snapshot_ref : Option String
  extra : Option ExtraMap
deriving DecidableEq

/-- The validated `EventIn` pydantic model of
`src/backend/app/routes/events.py`. -/
structure EventIn where
  event_type : String
  timestamp : Timestamp
  site_id : String
  device_id : String
  camera_id : String
  zone : Option String
  confidence : Rat
  snapshot_ref : Option String
  extra : ExtraMap
deriving DecidableEq

/-- The per-field validation errors pydantic reports for a raw body against
`EventIn`: `event_type` must be present and a member of the `Literal` set;
`site_id`, `device_id`, `camera_id` are required `str` fields (no emptiness
constraint is declared); `confidence` is required with `ge=0.0, le=1.0`;
`timestamp`, `zone`, `snapshot_ref`, `extra` are optional with defaults.
Pydantic collects one error per offending field, not just the first. -/
def EventIn.fieldErrors (r : RawEvent) : List String :=
  (match r.event_type with
   | none => ["event_type"]
   | some t => if t ∈ EventType then [] else ["event_type"]) ++
  (match r.site_id with
   | none => ["site_id"]
   | some _ => []) ++
  (match r.device_id with
   | none => ["device_id"]
   | some _ => []) ++
  (match r.camera_id with
   | none => ["camera_id"]
   | some _ => []) ++
  (match r.confidence with
   | none => ["confidence"]
   | some c => if 0 ≤ c ∧ c ≤ 1 then [] else ["confidence"])

/-- Pydantic validation of a raw body against `EventIn`: on success the
defaults are filled in (`timestamp` defaults to the supplied `now`, from
`default_factory=utc_now_naive`; `zone` and `snapshot_ref` default to `None`;
`extra` defaults to the empty mapping); on failure the field-error list is
returned and no model is produced. -/
def EventIn.validate (now : Timestamp) (r : RawEvent) : Except (List String) EventIn :=
  if EventIn.fieldErrors r = [] then
    .ok { event_type := r.event_type.getD "",
          timestamp := r.timestamp.getD now,
          site_id := r.site_id.getD "",
          device_id := r.device_id.getD "",
          camera_id := r.camera_id.getD "",
          zone := r.zone,
          confidence := r.confidence.getD 0,
          snapshot_ref := r.snapshot_ref,
          extra := r.extra.getD [] }
  else
    .error (EventIn.fieldErrors r)

/-- The persisted row: class `Event` of `src/backend/app/models.py`
(imported as `EventRow` by the routes).  `id` is the autoincrement primary
key; the `extra` JSONB column may in principle hold SQL NULL, hence
`Option ExtraMap`. -/
structure Event where
  id : Nat
  event_type : String
  timestamp : Timestamp
  site_id : String
  device_id : String
  camera_id : String
  zone : Option String
  confidence : Rat
  snapshot_ref : Option String
  extra : Option ExtraMap
deriving DecidableEq

/-- The events table plus the autoincrement counter the store uses to assign
the next primary key. -/
structure Store where
  rows : List Event
  nextId : Nat
deriving DecidableEq

/-- The `EventOut` response model.  `extra` is modelled at the wire level as
an optional mapping so that the absence of JSON `null` in responses is a
provable property rather than a typing artifact. -/
structure EventOut where
  id : Nat
  event_type : String
  timestamp : Timestamp
  site_id : String
  device_id : String
  camera_id : String
  zone : Option String
  confidence : Rat
  snapshot_ref : Option String
  extra : Option ExtraMap
deriving DecidableEq

/-- Python `x or {}` on an optional mapping: `None` and the empty mapping are
falsy and yield the empty mapping; any other mapping is returned itself. -/
def pyOrEmpty (x : Option ExtraMap) : ExtraMap :=
  match x with
  | none => []
  | some m => if m = [] then [] else m

/-- The `EventOut(...)` construction both handlers perform from a row `r`,
with `extra=r.extra or {}`. -/
def Event.toOut (r : Event) : EventOut :=
  { id := r.id,
    event_type := r.event_type,
    timestamp := r.timestamp,
    site_id := r.site_id,
    device_id := r.device_id,
    camera_id := r.camera_id,
    zone := r.zone,
    confidence := r.confidence,
    snapshot_ref := r.snapshot_ref,
    extra := some (pyOrEmpty r.extra) }

/-- The `POST /v1/events` handler `ingest_event` together with the framework
validation that runs before it: an invalid body is answered with the
field-error list and the handler never runs (the store is untouched).  On a
valid body the handler makes the timestamp timezone-aware — `if ts.tzinfo is
None: ts = ts.replace(tzinfo=timezone.utc)`, which attaches UTC to a naive
timestamp and leaves an aware one untouched — then inserts one row, letting
the store assign the next id, and returns the row as an `EventOut`. -/
def ingest_event (nowWall : Int) (st : Store) (payload : RawEvent) :
    Except (List String) EventOut × Store :=
  match EventIn.validate (utc_now_naive nowWall) payload with
  | .error es => (.error es, st)
  | .ok p =>
    let ts := if p.timestamp.offset = none
      then { p.timestamp with offset := some 0 }
      else p.timestamp
    let row : Event :=
      { id := st.nextId,
        event_type := p.event_type,
        timestamp := ts,
        site_id := p.site_id,
        device_id := p.device_id,
        camera_id := p.camera_id,
        zone := p.zone,
        confidence := p.confidence,
        snapshot_ref := p.snapshot_ref,
        extra := some p.extra }
    (.ok row.toOut, { rows := st.rows ++ [row], nextId := st.nextId + 1 })

/-- Descending-timestamp comparison used by
`order_by(desc(EventRow.timestamp))`. -/
def tsDesc (a b : Event) : Bool :=
  b.timestamp.key ≤ a.timestamp.key

/-- The `GET /v1/events` handler body: `select(EventRow).order_by(
desc(EventRow.timestamp)).limit(limit)`, each row rendered as `EventOut`. -/
def list_events (st : Store) (limit : Nat) : List EventOut :=
  ((st.rows.mergeSort tsDesc).take limit).map Event.toOut

/-- The `Query(default=50, ge=1, le=500)` declaration on `limit`: FastAPI
validates the query parameter before the handler runs; absence yields the
default 50, an out-of-range value is a client error. -/
def checkLimit (q : Option Int) : Except String Int :=
  match q with
  | none => .ok 50
  | some n => if 1 ≤ n ∧ n ≤ 500 then .ok n else .error "limit"

/-- The full `GET /v1/events` endpoint: parameter validation, then the
handler. -/
def get_events (st : Store) (q : Option Int) : Except String (List EventOut) :=
  match checkLimit q with
  | .error e => .error e
  | .ok n => .ok (list_events st n.toNat)

/-- Ways the round-trip to the store inside `db_ping` can fail; the Python
code catches every `Exception` alike. -/
inductive DbFailure where
  | timeout
  | connectionRefused
  | protocolError
  | other
deriving DecidableEq

/-- `db_ping` of `src/backend/app/db.py`: the outcome of
`engine.connect()` + `SELECT 1` is passed in; success yields `True` and any
exception is caught and yields `False`. -/
def db_ping (conn : Except DbFailure Unit) : Bool :=
  match conn with
  | .ok _ => true
  | .error _ => false

/-- The `/health` response body. -/
structure HealthResponse where
  status : String
  service : String
  db_ok : Bool
deriving DecidableEq

/-- The `/health` handler of `src/backend/app/routes/health.py`. -/
def health (conn : Except DbFailure Unit) : HealthResponse :=
  { status := "ok", service := "quieteye-backend", db_ok := db_ping conn }

namespace Edge

/-- The producer-side closed `event_type` set: the `Literal[...]` named
`EventType` in `src/edge/core/events.py`. -/
def EventType : List String :=
  ["AFTER_HOURS_PRESENCE",
   "PERSON_IN_RESTRICTED_ZONE",
   "SMOKING_IN_RESTRICTED_ZONE",
   "FIRE_DETECTED",
   "FIRE_IN_RESTRICTED_ZONE",
   "ATTENDANCE_CHECKIN"]

/-- `utc_now` in `src/edge/core/events.py`: `datetime.now(timezone.utc)`. -/
def utc_now (wall : Int) : Timestamp :=
  { wall := wall, offset := some 0 }

/-- The per-field validation errors pydantic reports for a raw field
assignment against the producer-side `QuietEyeEvent` model of
`src/edge/core/events.py`. -/
def QuietEyeEvent.fieldErrors (r : RawEvent) : List String :=
  (match r.event_type with
   | none => ["event_type"]
   | some t => if t ∈ Edge.EventType then [] else ["event_type"]) ++
  (match r.site_id with
   | none => ["site_id"]
   | some _ => []) ++
  (match r.device_id with
   | none => ["device_id"]
   | some _ => []) ++
  (match r.camera_id with
   | none => ["camera_id"]
   | some _ => []) ++
  (match r.confidence with
   | none => ["confidence"]
   | some c => if 0 ≤ c ∧ c ≤ 1 then [] else ["confidence"])

/-- Pydantic validation against `QuietEyeEvent` (producer side), with the same
defaults: `timestamp` from `default_factory=utc_now`, `zone` and
`snapshot_ref` defaulting to `None`, `extra` to the empty mapping. -/
def QuietEyeEvent.validate (now : Timestamp) (r : RawEvent) :
    Except (List String) EventIn :=
  if QuietEyeEvent.fieldErrors r = [] then
    .ok { event_type := r.event_type.getD "",
          timestamp := r.timestamp.getD now,
          site_id := r.site_id.getD "",
          device_id := r.device_id.getD "",
          camera_id := r.camera_id.getD "",
          zone := r.zone,
          confidence := r.confidence.getD 0,
          snapshot_ref := r.snapshot_ref,
          extra := r.extra.getD [] }
  else
    .error (QuietEyeEvent.fieldErrors r)

end Edge

/-! Sample inputs used by witnesses and counterexamples. -/

/-- An empty store whose next assigned id is 0. -/
def store0 : Store := { rows := [], nextId := 0 }

/-- A raw body passing every `EventIn` check; its timestamp is the naive
`2024-01-01T00:00:00` (1704067200 seconds since the epoch, no offset). -/
def rawValid : RawEvent :=
  { event_type := some "FIRE_DETECTED",
    timestamp := some { wall := 1704067200, offset := none },
    site_id := some "S1",
    device_id := some "D1",
    camera_id := some "C1",
    zone := none,
    confidence := some 1,
    snapshot_ref := none,
    extra := none }

/-- A raw body with an out-of-set `event_type` and an out-of-bounds
`confidence`. -/
def rawBad : RawEvent :=
  { rawValid with event_type := some "BOGUS", confidence := some 2 }

/-- A raw body valid except that `site_id` is the empty string. -/
def rawEmptySite : RawEvent :=
  { rawValid with site_id := some "" }

/-- A raw body valid except that `site_id` is missing. -/
def rawNoSite : RawEvent :=
  { rawValid with site_id := none }

/-- A raw body whose timestamp is timezone-aware with offset +300 minutes
(+05:00), i.e. `2024-01-01T05:00:00+05:00` shifted to wall 0 for brevity:
wall-clock 0 with a non-UTC offset. -/
def rawNonUtc : RawEvent :=
  { rawValid with timestamp := some { wall := 0, offset := some 300 } }

/-- A persisted row whose `extra` column holds SQL NULL. -/
def rowNullExtra : Event :=
  { id := 7, event_type := "FIRE_DETECTED",
    timestamp := { wall := 0, offset := some 0 },
    site_id := "S1", device_id := "D1", camera_id := "C1",
    zone := none, confidence := 1, snapshot_ref := none, extra := none }

/-! Helper lemmas shared by several claims. -/

/-- When validation reports at least one field error, the endpoint answers
with exactly that error list and leaves the store untouched. -/
theorem ingest_event_of_fieldErrors_ne_nil (nw : Int) (st : Store) (r : RawEvent)
    (h : EventIn.fieldErrors r ≠ []) :
    ingest_event nw st r = (.error (EventIn.fieldErrors r), st) := by
  simp [ingest_event, EventIn.validate, h]

/-! Claim theorems. -/

/-- C1 (code evaluated at the failing input): a raw event whose timestamp
carries the non-UTC offset +300 minutes is ingested with that timestamp
unchanged — the returned stored event still carries offset +300, which is not
the UTC offset.  Only naive timestamps are relabeled; no conversion to UTC is
performed. -/
theorem ingest_keeps_nonUtc_offset :
    ((ingest_event 0 store0 rawNonUtc).1.map fun o => o.timestamp) =
      .ok { wall := 0, offset := some 300 } ∧
    ({ wall := 0, offset := some 300 } : Timestamp).offset ≠ some 0 :=
  ⟨rfl, by decide⟩

/-- C2: when `confidence` lies outside [0, 1] or `event_type` is outside the
closed six-value set, ingestion answers with a field-error list naming the
offending field and returns the store unchanged (same rows, same next id). -/
theorem ingest_rejects_bad_confidence_and_event_type (nw : Int) (st : Store)
    (r : RawEvent) :
    (∀ c : Rat, r.confidence = some c → c < 0 ∨ 1 < c →
      (∃ es, (ingest_event nw st r).1 = .error es ∧ "confidence" ∈ es) ∧
      (ingest_event nw st r).2 = st) ∧
    (∀ t : String, r.event_type = some t → t ∉ EventType →
      (∃ es, (ingest_event nw st r).1 = .error es ∧ "event_type" ∈ es) ∧
      (ingest_event nw st r).2 = st) := by
  constructor
  · intro c hc hbad
    have hnot : ¬ (0 ≤ c ∧ c ≤ 1) := by
      rintro ⟨h0, h1⟩
      rcases hbad with h | h
      · exact absurd h0 (not_le.mpr h)
      · exact absurd h1 (not_le.mpr h)
    have hmem : "confidence" ∈ EventIn.fieldErrors r := by
      simp [EventIn.fieldErrors, hc, hnot]
    rw [ingest_event_of_fieldErrors_ne_nil nw st r (List.ne_nil_of_mem hmem)]
    exact ⟨⟨_, rfl, hmem⟩, rfl⟩
  · intro t ht hbad
    have hmem : "event_type" ∈ EventIn.fieldErrors r := by
      simp [EventIn.fieldErrors, ht, hbad]
    rw [ingest_event_of_fieldErrors_ne_nil nw st r (List.ne_nil_of_mem hmem)]
    exact ⟨⟨_, rfl, hmem⟩, rfl⟩

/-- C2 witness: the rejection theorem applied to a concrete raw body with
`confidence = 2` and `event_type = "BOGUS"` against the empty store. -/
theorem ingest_rejects_bad_confidence_and_event_type_witness :
    ((∃ es, (ingest_event 0 store0 rawBad).1 = .error es ∧ "confidence" ∈ es) ∧
      (ingest_event 0 store0 rawBad).2 = store0) ∧
    ((∃ es, (ingest_event 0 store0 rawBad).1 = .error es ∧ "event_type" ∈ es) ∧
      (ingest_event 0 store0 rawBad).2 = store0) :=
  ⟨(ingest_rejects_bad_confidence_and_event_type 0 store0 rawBad).1 2 rfl
      (Or.inr (by norm_num)),
   (ingest_rejects_bad_confidence_and_event_type 0 store0 rawBad).2 "BOGUS" rfl
      (by decide)⟩

/-- C3 (counterexample): a raw event whose `site_id` is the empty string is
NOT rejected — ingestion succeeds and writes one row, so the claim that an
empty identifier is rejected with no write is false on the code. -/
theorem ingest_accepts_empty_site_id :
    (ingest_event 0 store0 rawEmptySite).1.isOk = true ∧
    (ingest_event 0 store0 rawEmptySite).2.rows.length = 1 :=
  ⟨rfl, rfl⟩

/-- C3 (amended): when `site_id`, `device_id` or `camera_id` is missing,
ingestion answers with a field-error list naming that field and returns the
store unchanged; an empty string, however, satisfies the schema (no
non-emptiness constraint is declared). -/
theorem ingest_rejects_missing_identifiers (nw : Int) (st : Store)
    (r : RawEvent) :
    (r.site_id = none →
      (∃ es, (ingest_event nw st r).1 = .error es ∧ "site_id" ∈ es) ∧
      (ingest_event nw st r).2 = st) ∧
    (r.device_id = none →
      (∃ es, (ingest_event nw st r).1 = .error es ∧ "device_id" ∈ es) ∧
      (ingest_event nw st r).2 = st) ∧
    (r.camera_id = none →
      (∃ es, (ingest_event nw st r).1 = .error es ∧ "camera_id" ∈ es) ∧
      (ingest_event nw st r).2 = st) := by
  refine ⟨fun h => ?_, fun h => ?_, fun h => ?_⟩
  · have hmem : "site_id" ∈ EventIn.fieldErrors r := by
      simp [EventIn.fieldErrors, h]
    rw [ingest_event_of_fieldErrors_ne_nil nw st r (List.ne_nil_of_mem hmem)]
    exact ⟨⟨_, rfl, hmem⟩, rfl⟩
  · have hmem : "device_id" ∈ EventIn.fieldErrors r := by
      simp [EventIn.fieldErrors, h]
    rw [ingest_event_of_fieldErrors_ne_nil nw st r (List.ne_nil_of_mem hmem)]
    exact ⟨⟨_, rfl, hmem⟩, rfl⟩
  · have hmem : "camera_id" ∈ EventIn.fieldErrors r := by
      simp [EventIn.fieldErrors, h]
    rw [ingest_event_of_fieldErrors_ne_nil nw st r (List.ne_nil_of_mem hmem)]
    exact ⟨⟨_, rfl, hmem⟩, rfl⟩

/-- C3 witness: the missing-identifier theorem applied to a concrete raw body
lacking `site_id`, against the empty store. -/
theorem ingest_rejects_missing_identifiers_witness :
    (∃ es, (ingest_event 0 store0 rawNoSite).1 = .error es ∧ "site_id" ∈ es) ∧
    (ingest_event 0 store0 rawNoSite).2 = store0 :=
  (ingest_rejects_missing_identifiers 0 store0 rawNoSite).1 rfl

/-- C4: for every store state and every limit, the listing handler returns at
most `limit` events, and the returned sequence is pairwise sorted by
timestamp descending: whenever `a` appears before `b`, the instant of `b` is
at most the instant of `a`. -/
theorem list_events_length_le_and_sorted_desc (st : Store) (limit : Nat) :
    (list_events st limit).length ≤ limit ∧
    List.Pairwise (fun a b : EventOut => b.timestamp.key ≤ a.timestamp.key)
      (list_events st limit) := by
  constructor
  · simp only [list_events, List.length_map, List.length_take,
      List.length_mergeSort]
    omega
  · have htrans : ∀ a b c : Event,
        tsDesc a b = true → tsDesc b c = true → tsDesc a c = true := by
      intro a b c hab hbc
      simp only [tsDesc, decide_eq_true_eq] at *
      omega
    have htotal : ∀ a b : Event, (tsDesc a b || tsDesc b a) = true := by
      intro a b
      simp only [tsDesc, Bool.or_eq_true, decide_eq_true_eq]
      omega
    have hs := List.sorted_mergeSort htrans htotal st.rows
    have htake := List.Pairwise.sublist
      (List.take_sublist limit (st.rows.mergeSort tsDesc)) hs
    refine List.Pairwise.map Event.toOut ?_ htake
    intro a b hab
    simpa only [tsDesc, decide_eq_true_eq, Event.toOut] using hab

/-- C5: the `limit` query parameter is validated before the handler runs —
every value outside [1, 500] is answered with a client error whatever the
store holds, while 1 and 500 are accepted and an absent parameter defaults to
50. -/
theorem limit_bounds_enforced :
    (∀ (st : Store) (n : Int), n < 1 ∨ 500 < n →
      get_events st (some n) = .error "limit") ∧
    (∀ st : Store,
      get_events st (some 1) = .ok (list_events st 1) ∧
      get_events st (some 500) = .ok (list_events st 500) ∧
      get_events st none = .ok (list_events st 50)) := by
  constructor
  · intro st n h
    have hnot : ¬ (1 ≤ n ∧ n ≤ 500) := by omega
    simp [get_events, checkLimit, hnot]
  · exact fun st => ⟨rfl, rfl, rfl⟩

/-- C5 witness: the bound theorem applied at `limit = 0` and `limit = 501`
against the empty store. -/
theorem limit_bounds_enforced_witness :
    get_events store0 (some 0) = .error "limit" ∧
    get_events store0 (some 501) = .error "limit" :=
  ⟨limit_bounds_enforced.1 store0 0 (Or.inl (by norm_num)),
   limit_bounds_enforced.1 store0 501 (Or.inr (by norm_num))⟩

/-- C6: a raw event carrying a timezone-naive timestamp is ingested with UTC
attached and the wall-clock value unchanged: the returned stored event's
timestamp has the same wall clock and offset 0. -/
theorem ingest_naive_timestamp_gets_utc (nw : Int) (st : Store) (r : RawEvent)
    (w : Int) (ht : r.timestamp = some { wall := w, offset := none })
    (hv : EventIn.fieldErrors r = []) :
    ((ingest_event nw st r).1.map fun o => o.timestamp) =
      .ok { wall := w, offset := some 0 } := by
  simp [ingest_event, EventIn.validate, hv, ht, Event.toOut, Except.map]

/-- C6 witness: the naive timestamp `2024-01-01T00:00:00` (wall 1704067200,
no offset) normalizes to `2024-01-01T00:00:00Z` (same wall, offset 0). -/
theorem ingest_naive_timestamp_gets_utc_witness :
    ((ingest_event 0 store0 rawValid).1.map fun o => o.timestamp) =
      .ok { wall := 1704067200, offset := some 0 } :=
  ingest_naive_timestamp_gets_utc 0 store0 rawValid 1704067200 rfl (by decide)

/-- C7: two sequential ingestions of the same valid payload both succeed; the
first returns id `st.nextId`, the second the distinct id `st.nextId + 1`, and
the store gains exactly two rows. -/
theorem ingest_twice_distinct_ids (nw : Int) (st : Store) (r : RawEvent)
    (hv : EventIn.fieldErrors r = []) :
    ((ingest_event nw st r).1.map fun o => o.id) = .ok st.nextId ∧
    ((ingest_event nw (ingest_event nw st r).2 r).1.map fun o => o.id) =
      .ok (st.nextId + 1) ∧
    st.nextId ≠ st.nextId + 1 ∧
    (ingest_event nw (ingest_event nw st r).2 r).2.rows.length =
      st.rows.length + 2 := by
  refine ⟨?_, ?_, by omega, ?_⟩
  · simp [ingest_event, EventIn.validate, hv, Event.toOut, Except.map]
  · simp [ingest_event, EventIn.validate, hv, Event.toOut, Except.map]
  · simp [ingest_event, EventIn.validate, hv]

/-- C7 witness: the double-ingestion theorem applied to the concrete valid
payload against the empty store. -/
theorem ingest_twice_distinct_ids_witness :
    ((ingest_event 0 store0 rawValid).1.map fun o => o.id) = .ok store0.nextId ∧
    ((ingest_event 0 (ingest_event 0 store0 rawValid).2 rawValid).1.map
        fun o => o.id) = .ok (store0.nextId + 1) ∧
    store0.nextId ≠ store0.nextId + 1 ∧
    (ingest_event 0 (ingest_event 0 store0 rawValid).2 rawValid).2.rows.length =
      store0.rows.length + 2 :=
  ingest_twice_distinct_ids 0 store0 rawValid (by decide)

/-- C8: the health probe is a total boolean function of the round-trip
outcome — every failure (timeout, connection refusal, protocol error, any
other exception) yields `false` and a successful round-trip yields `true` —
and the `/health` handler always answers with status `"ok"` and `db_ok`
carrying exactly that boolean. -/
theorem db_ping_never_raises_and_health_ok :
    (∀ e : DbFailure, db_ping (.error e) = false) ∧
    db_ping (.ok ()) = true ∧
    (∀ conn : Except DbFailure Unit,
      health conn = { status := "ok", service := "quieteye-backend",
                      db_ok := db_ping conn }) :=
  ⟨fun _ => rfl, rfl, fun _ => rfl⟩

/-- C9: the producer-side schema (`QuietEyeEvent`, `src/edge/core/events.py`)
and the ingestion-side schema (`EventIn`, `src/backend/app/routes/events.py`)
validate the identical contract: on every raw field assignment and every
current wall clock, the two validators produce the same result — same
accept/reject verdict, same field errors, same defaults. -/
theorem edge_backend_schema_equivalent (w : Int) (r : RawEvent) :
    Edge.QuietEyeEvent.validate (Edge.utc_now w) r =
      EventIn.validate (utc_now_naive w) r :=
  rfl

/-- C9 witness: the equivalence theorem instantiated at the concrete valid
payload (no propositional hypotheses to discharge; the instantiation shows
both validators accept it identically). -/
theorem edge_backend_schema_equivalent_witness :
    Edge.QuietEyeEvent.validate (Edge.utc_now 0) rawValid =
      EventIn.validate (utc_now_naive 0) rawValid :=
  edge_backend_schema_equivalent 0 rawValid

/-- C10: no response ever carries `extra = null` — every event returned by
the listing handler, for any store state (rows with SQL NULL `extra`
included), and every event returned by a successful ingestion, has a
non-null `extra`. -/
theorem extra_never_null :
    (∀ (st : Store) (limit : Nat), ∀ o ∈ list_events st limit,
      o.extra ≠ none) ∧
    (∀ (nw : Int) (st : Store) (r : RawEvent) (o : EventOut) (st2 : Store),
      ingest_event nw st r = (.ok o, st2) → o.extra ≠ none) := by
  constructor
  · intro st limit o ho
    simp only [list_events, List.mem_map] at ho
    obtain ⟨a, -, rfl⟩ := ho
    simp [Event.toOut]
  · intro nw st r o st2 h
    cases hval : EventIn.validate (utc_now_naive nw) r with
    | error es => simp [ingest_event, hval] at h
    | ok p =>
      simp only [ingest_event, hval] at h
      obtain ⟨h1, -⟩ := Prod.mk.injEq .. ▸ h
      rw [← Except.ok.inj h1]
      simp [Event.toOut]

/-- C10 witness: in a store holding one row whose `extra` column is SQL NULL,
the single event returned by the listing handler has non-null `extra`. -/
theorem extra_never_null_witness :
    (Event.toOut rowNullExtra).extra ≠ none :=
  extra_never_null.1 { rows := [rowNullExtra], nextId := 8 } 1
    (Event.toOut rowNullExtra) (by simp [list_events, List.mergeSort])

end QuietEye
